import Mathlib

/-
Verification of the OurLoRa SX1278 driver (src/firmware/ourlora.h).

The driver is embedded shallowly:
- register reads are supplied by an oracle `regs : Nat -> Nat` (the value the
  chip would return at that address); every read result is taken mod 256,
  matching the uint8_t return of read_lora_register;
- the interrupt-flag polling loop of send_a_msg reads the flags register once
  per elapsed millisecond, so its oracle is indexed by elapsed time
  `flags : Nat -> Nat`;
- every bus interaction the driver performs is recorded in an event trace
  (single-register reads and writes, and the two multi-byte FIFO burst
  sessions), so frame properties (which registers are touched) are provable;
- the process-wide mutable globals _lastRssi, _lastSnr, _currentFreq become an
  explicit SessionState threaded through each operation.
Machine arithmetic follows the C source: uint64 / uint32 intermediate values
are Nat with explicit mod 2^64 / 2^32, signed quantities are Int, and the
C cast (int8_t) and truncating division are modelled explicitly.
-/

namespace OurLoRa

/-- Register addresses, from the defines in ourlora.h. -/
def REG_FIFO : Nat := 0x00
def REG_OP_MODE : Nat := 0x01
def REG_FRF_MSB : Nat := 0x06
def REG_FRF_MID : Nat := 0x07
def REG_FRF_LSB : Nat := 0x08
def REG_PA_CONFIG : Nat := 0x09
def REG_LNA : Nat := 0x0C
def REG_FIFO_ADDR_PTR : Nat := 0x0D
def REG_FIFO_TX_BASE_ADDR : Nat := 0x0E
def REG_FIFO_RX_BASE_ADDR : Nat := 0x0F
def REG_FIFO_RX_CURRENT_ADDR : Nat := 0x10
def REG_IRQ_FLAGS : Nat := 0x12
def REG_RX_NB_BYTES : Nat := 0x13
def REG_PKT_RSSI_VALUE : Nat := 0x1A
def REG_PKT_SNR_VALUE : Nat := 0x19
def REG_MODEM_CONFIG_1 : Nat := 0x1D
def REG_MODEM_CONFIG_2 : Nat := 0x1E
def REG_PREAMBLE_MSB : Nat := 0x20
def REG_PREAMBLE_LSB : Nat := 0x21
def REG_PAYLOAD_LENGTH : Nat := 0x22
def REG_MODEM_CONFIG_3 : Nat := 0x26
def REG_SYNC_WORD : Nat := 0x39
def REG_VERSION : Nat := 0x42
def REG_PA_DAC : Nat := 0x4D

/-- Operating-mode constants. -/
def MODE_LONG_RANGE_MODE : Nat := 0x80
def MODE_SLEEP : Nat := 0x00
def MODE_STDBY : Nat := 0x01
def MODE_TX : Nat := 0x03
def MODE_RX_CONTINUOUS : Nat := 0x05

/-- Interrupt-flag masks. -/
def IRQ_TX_DONE_MASK : Nat := 0x08
def IRQ_RX_DONE_MASK : Nat := 0x40
def IRQ_PAYLOAD_CRC_ERROR : Nat := 0x20

/-- Power-amplifier constant. -/
def PA_BOOST : Nat := 0x80

/-- One bus interaction performed by the driver: a single-register read
(returning the given byte), a single-register write, a FIFO burst write of the
given data bytes in one chip-select session, or a FIFO burst read returning the
given data bytes in one chip-select session. -/
inductive Ev where
  | rd (addr val : Nat)
  | wr (addr val : Nat)
  | burstWr (data : List Nat)
  | burstRd (data : List Nat)
deriving DecidableEq, Repr

/-- The process-wide mutable globals of ourlora.h: _lastRssi, _lastSnr,
_currentFreq. -/
structure SessionState where
  lastRssi : Int
  lastSnr : Int
  currentFreq : Int
deriving DecidableEq, Repr

/-- Initial values of the globals: `static int _lastRssi = 0;`,
`static int _lastSnr = 0;`, `static long _currentFreq = 0;`. -/
def initState : SessionState := ⟨0, 0, 0⟩

/-- The frequency-word computation of setup_ourlora, line 171:
`uint32_t frf = ((uint64_t)frequency_mhz * 1000000 << 19) / 32000000;`.
The cast long -> uint64 is mod 2^64, the multiply and shift wrap mod 2^64,
and the assignment to a uint32_t truncates mod 2^32. -/
def frfWord (frequency_mhz : Int) : Nat :=
  let f64 : Nat := (frequency_mhz % (2 ^ 64 : Int)).toNat
  (f64 * 1000000 % 2 ^ 64 * 2 ^ 19 % 2 ^ 64 / 32000000) % 2 ^ 32

/-- Division rounded to nearest (ties away from zero) on Nat:
round(a / b) = (2a + b) / (2b). -/
def roundDiv (a b : Nat) : Nat := (2 * a + b) / (2 * b)

/-- The value the spec asks for: round(frequencyMHz * 1000000 * 2^19 / 32000000),
computed with exact (unbounded) arithmetic. -/
def frfSpec (fMHz : Nat) : Nat := roundDiv (fMHz * 1000000 * 2 ^ 19) 32000000

/-- setup_ourlora (lines 140-216). Register reads come from the oracle `regs`.
Returns (result, new state, event trace). The version check happens after the
hardware reset; on mismatch the function returns false before any register
write and before _currentFreq is assigned. -/
def setup_ourlora (frequency_mhz : Int) (regs : Nat → Nat) (st : SessionState) :
    Bool × SessionState × List Ev :=
  let version := regs REG_VERSION % 256
  if version ≠ 0x12 then
    (false, st, [Ev.rd REG_VERSION version])
  else
    let frf := frfWord frequency_mhz
    let lna := regs REG_LNA % 256
    (true, { st with currentFreq := frequency_mhz },
      [Ev.rd REG_VERSION version,
       Ev.wr REG_OP_MODE (MODE_LONG_RANGE_MODE ||| MODE_SLEEP),
       Ev.wr REG_FRF_MSB (frf / 2 ^ 16 % 256),
       Ev.wr REG_FRF_MID (frf / 2 ^ 8 % 256),
       Ev.wr REG_FRF_LSB (frf % 256),
       Ev.wr REG_FIFO_TX_BASE_ADDR 0x00,
       Ev.wr REG_FIFO_RX_BASE_ADDR 0x00,
       Ev.rd REG_LNA lna,
       Ev.wr REG_LNA ((lna ||| 0x03) % 256),
       Ev.wr REG_MODEM_CONFIG_1 0x72,
       Ev.wr REG_MODEM_CONFIG_2 0x74,
       Ev.wr REG_MODEM_CONFIG_3 0x04,
       Ev.wr REG_PREAMBLE_MSB 0x00,
       Ev.wr REG_PREAMBLE_LSB 0x08,
       Ev.wr REG_SYNC_WORD 0x12,
       Ev.wr REG_PA_CONFIG (PA_BOOST ||| 0x0F),
       Ev.wr REG_PA_DAC 0x87,
       Ev.wr REG_OP_MODE (MODE_LONG_RANGE_MODE ||| MODE_STDBY)])

/-- The TX-done polling loop of send_a_msg (lines 258-265).
`e` is the elapsed time in ms since `startTime` (reads and register access take
no modelled time; each `delay(1)` advances `e` by one). One iteration: read the
flags register; if the TX-done bit is set leave the loop (success); otherwise
if more than 2000 ms have elapsed return failure; otherwise delay 1 ms and poll
again. `fuel` bounds the recursion; the caller passes 2002, which the timeout
check makes sufficient. Returns (TX-done observed?, events of the loop). -/
def txWait (flags : Nat → Nat) : Nat → Nat → Bool × List Ev
  | 0, _ => (false, [])
  | fuel + 1, e =>
    if (flags e % 256) &&& IRQ_TX_DONE_MASK ≠ 0 then
      (true, [Ev.rd REG_IRQ_FLAGS (flags e % 256)])
    else if 2000 < e then
      (false, [Ev.rd REG_IRQ_FLAGS (flags e % 256)])
    else
      ((txWait flags fuel (e + 1)).1,
        Ev.rd REG_IRQ_FLAGS (flags e % 256) :: (txWait flags fuel (e + 1)).2)

/-- send_a_msg (lines 233-274). The payload is the list `message` (its length
plays the role of the uint8_t `length` argument); `flags` gives the value the
interrupt-flags register would return at each elapsed millisecond of the wait
loop. Returns (result, new state, event trace). On success the TX-done flag is
cleared and the mode returns to Standby; on timeout the function returns false
with no further writes, leaving the mode register at Transmit. -/
def send_a_msg (message : List Nat) (flags : Nat → Nat) (st : SessionState) :
    Bool × SessionState × List Ev :=
  let pre : List Ev :=
    [Ev.wr REG_OP_MODE (MODE_LONG_RANGE_MODE ||| MODE_STDBY),
     Ev.wr REG_IRQ_FLAGS 0xFF,
     Ev.wr REG_FIFO_ADDR_PTR 0x00,
     Ev.burstWr (message.map (· % 256)),
     Ev.wr REG_PAYLOAD_LENGTH (message.length % 256),
     Ev.wr REG_OP_MODE (MODE_LONG_RANGE_MODE ||| MODE_TX)]
  let w := txWait flags 2002 0
  if w.1 then
    (true, st,
      pre ++ w.2 ++
        [Ev.wr REG_IRQ_FLAGS IRQ_TX_DONE_MASK,
         Ev.wr REG_OP_MODE (MODE_LONG_RANGE_MODE ||| MODE_STDBY)])
  else
    (false, st, pre ++ w.2)

/-- The C cast (int8_t) applied to a byte 0..255: values 128..255 become
negative (two-s complement). -/
def signedByte (b : Nat) : Int :=
  if b < 128 then (b : Int) else (b : Int) - 256

/-- check_for_msg (lines 298-343). `maxLength` is the uint8_t buffer capacity
(taken mod 256 like the parameter), `regs` the register-read oracle, `fifo` the
bytes the FIFO burst read would return. Returns
(C return value, bytes written into the caller buffer, new state, trace).
The buffer model is the returned byte list: the burst loop writes
buffer[0..packetLength-1] and nothing beyond. -/
def check_for_msg (maxLength : Nat) (regs : Nat → Nat) (fifo : Nat → Nat)
    (st : SessionState) : Int × List Nat × SessionState × List Ev :=
  let irqFlags := regs REG_IRQ_FLAGS % 256
  if irqFlags &&& IRQ_RX_DONE_MASK = 0 then
    (0, [], st, [Ev.rd REG_IRQ_FLAGS irqFlags])
  else if irqFlags &&& IRQ_PAYLOAD_CRC_ERROR ≠ 0 then
    (-1, [], st,
      [Ev.rd REG_IRQ_FLAGS irqFlags,
       Ev.wr REG_IRQ_FLAGS IRQ_RX_DONE_MASK,
       Ev.wr REG_IRQ_FLAGS IRQ_PAYLOAD_CRC_ERROR])
  else
    let nb := regs REG_RX_NB_BYTES % 256
    let packetLength := if nb > maxLength % 256 then maxLength % 256 else nb
    let currentAddr := regs REG_FIFO_RX_CURRENT_ADDR % 256
    let data := (List.range packetLength).map (fun i => fifo i % 256)
    let rawRssi := regs REG_PKT_RSSI_VALUE % 256
    let rawSnr := regs REG_PKT_SNR_VALUE % 256
    let rssiOffset : Int := if st.currentFreq < 525 then 164 else 157
    ((packetLength : Int), data,
      { st with lastRssi := (rawRssi : Int) - rssiOffset,
                lastSnr := Int.tdiv (signedByte rawSnr) 4 },
      [Ev.rd REG_IRQ_FLAGS irqFlags,
       Ev.wr REG_IRQ_FLAGS IRQ_RX_DONE_MASK,
       Ev.rd REG_RX_NB_BYTES nb,
       Ev.rd REG_FIFO_RX_CURRENT_ADDR currentAddr,
       Ev.wr REG_FIFO_ADDR_PTR currentAddr,
       Ev.burstRd data,
       Ev.rd REG_PKT_RSSI_VALUE rawRssi,
       Ev.rd REG_PKT_SNR_VALUE rawSnr])

/-- start_listening (lines 352-364): Standby, clear all flags, reset FIFO
pointer, enter continuous receive. Touches no session state. -/
def start_listening : List Ev :=
  [Ev.wr REG_OP_MODE (MODE_LONG_RANGE_MODE ||| MODE_STDBY),
   Ev.wr REG_IRQ_FLAGS 0xFF,
   Ev.wr REG_FIFO_ADDR_PTR 0x00,
   Ev.wr REG_OP_MODE (MODE_LONG_RANGE_MODE ||| MODE_RX_CONTINUOUS)]

/-- go_to_sleep (lines 407-409): a single mode write. -/
def go_to_sleep : List Ev :=
  [Ev.wr REG_OP_MODE (MODE_LONG_RANGE_MODE ||| MODE_SLEEP)]

/-- wake_up_lora (lines 417-420): a single mode write plus a settle delay. -/
def wake_up_lora : List Ev :=
  [Ev.wr REG_OP_MODE (MODE_LONG_RANGE_MODE ||| MODE_STDBY)]

/-- get_signal_strength (lines 379-381): a pure accessor returning _lastRssi;
no bus access, no state change. -/
def get_signal_strength (st : SessionState) : Int × SessionState × List Ev :=
  (st.lastRssi, st, [])

/-- get_signal_quality (lines 396-398): a pure accessor returning _lastSnr;
no bus access, no state change. -/
def get_signal_quality (st : SessionState) : Int × SessionState × List Ev :=
  (st.lastSnr, st, [])

/-- The values written to the operating-mode register in a trace, in order. -/
def modeWrites (tr : List Ev) : List Nat :=
  tr.filterMap (fun ev => match ev with
    | Ev.wr a v => if a = REG_OP_MODE then some v else none
    | _ => none)

/-- Every operating-mode write in the trace carries the long-range selector
bit 0x80 and one of the four legal mode values. -/
def goodModeWrite (tr : List Ev) : Prop :=
  ∀ v, Ev.wr REG_OP_MODE v ∈ tr →
    v &&& 0x80 = 0x80 ∧
      (v &&& 0x7F = MODE_SLEEP ∨ v &&& 0x7F = MODE_STDBY ∨
       v &&& 0x7F = MODE_TX ∨ v &&& 0x7F = MODE_RX_CONTINUOUS)

/-
Helper lemmas.
-/

/-- For frequencies in the valid range the C computation neither wraps nor
truncates: the frequency word is exactly 16384 times the frequency in MHz. -/
theorem frfWord_eq_mul (f : Int) (h1 : 0 < f) (h2 : f ≤ 1023) :
    frfWord f = f.toNat * 16384 := by
  have hmod : f % (2 ^ 64 : Int) = f :=
    Int.emod_eq_of_lt (le_of_lt h1) (by norm_num; omega)
  have hn : f.toNat ≤ 1023 := by omega
  show (f % (2 ^ 64 : Int)).toNat * 1000000 % 2 ^ 64 * 2 ^ 19 % 2 ^ 64 / 32000000 % 2 ^ 32
      = f.toNat * 16384
  rw [hmod]
  have e1 : f.toNat * 1000000 % 2 ^ 64 = f.toNat * 1000000 :=
    Nat.mod_eq_of_lt (by norm_num; omega)
  rw [e1]
  have e2 : f.toNat * 1000000 * 2 ^ 19 % 2 ^ 64 = f.toNat * 1000000 * 2 ^ 19 :=
    Nat.mod_eq_of_lt (by norm_num; omega)
  rw [e2]
  have e3 : f.toNat * 1000000 * 2 ^ 19 = f.toNat * 16384 * 32000000 := by ring
  rw [e3, Nat.mul_div_cancel _ (by norm_num : 0 < 32000000)]
  exact Nat.mod_eq_of_lt (by norm_num; omega)

/-- Every event emitted by the TX polling loop is a read of the
interrupt-flags register. -/
theorem txWait_events (flags : Nat → Nat) :
    ∀ fuel e, ∀ ev ∈ (txWait flags fuel e).2, ∃ v, ev = Ev.rd REG_IRQ_FLAGS v := by
  intro fuel
  induction fuel with
  | zero => intro e ev h; simp [txWait] at h
  | succ n ih =>
    intro e ev h
    simp only [txWait] at h
    split at h
    · simp at h; exact ⟨_, h⟩
    · split at h
      · simp at h; exact ⟨_, h⟩
      · simp at h
        rcases h with h | h
        · exact ⟨_, h⟩
        · exact ih (e + 1) ev h

/-- The polling loop succeeds exactly when some poll instant within the
timeout window shows the TX-done bit. -/
theorem txWait_true_iff (flags : Nat → Nat) :
    ∀ fuel e, 2002 ≤ e + fuel → e ≤ 2001 →
      ((txWait flags fuel e).1 = true ↔
        ∃ t, e ≤ t ∧ t ≤ 2001 ∧ (flags t % 256) &&& IRQ_TX_DONE_MASK ≠ 0) := by
  intro fuel
  induction fuel with
  | zero => intro e h1 h2; omega
  | succ n ih =>
    intro e h1 h2
    simp only [txWait]
    by_cases hb : (flags e % 256) &&& IRQ_TX_DONE_MASK ≠ 0
    · rw [if_pos hb]
      simp only [true_iff]
      exact ⟨e, le_refl e, h2, hb⟩
    · push_neg at hb
      rw [if_neg (fun hc => hc hb)]
      by_cases he : 2000 < e
      · have he' : e = 2001 := by omega
        subst he'
        rw [if_pos he]
        constructor
        · intro h; exact absurd h (by simp)
        · rintro ⟨t, ht1, ht2, ht3⟩
          have : t = 2001 := by omega
          subst this
          exact absurd hb ht3
      · rw [if_neg he]
        show (txWait flags n (e + 1)).1 = true ↔ _
        rw [ih (e + 1) (by omega) (by omega)]
        constructor
        · rintro ⟨t, ht1, ht2, ht3⟩
          exact ⟨t, by omega, ht2, ht3⟩
        · rintro ⟨t, ht1, ht2, ht3⟩
          have hne : t ≠ e := fun hc => ht3 (hc ▸ hb)
          exact ⟨t, by omega, ht2, ht3⟩

/-- When no poll in the window shows the TX-done bit, the loop returns failure
after polling the flags register once per millisecond from 0 through 2001. -/
theorem txWait_false_trace (flags : Nat → Nat) :
    ∀ fuel e, 2002 ≤ e + fuel → e ≤ 2001 →
      (∀ t, e ≤ t → t ≤ 2001 → (flags t % 256) &&& IRQ_TX_DONE_MASK = 0) →
      txWait flags fuel e =
        (false, (List.range' e (2002 - e)).map
          (fun t => Ev.rd REG_IRQ_FLAGS (flags t % 256))) := by
  intro fuel
  induction fuel with
  | zero => intro e h1 h2; omega
  | succ n ih =>
    intro e h1 h2 hall
    have hb : (flags e % 256) &&& IRQ_TX_DONE_MASK = 0 := hall e (le_refl e) h2
    simp only [txWait]
    rw [if_neg (fun hc => hc hb)]
    by_cases he : 2000 < e
    · have he' : e = 2001 := by omega
      subst he'
      rw [if_pos he]
      simp [List.range']
    · rw [if_neg he]
      have hr : 2002 - e = (2002 - (e + 1)) + 1 := by omega
      rw [ih (e + 1) (by omega) (by omega) (fun t ht1 ht2 => hall t (by omega) ht2), hr]
      simp [List.range']

/-- A mode-register write in a trace appears among its modeWrites values. -/
theorem mem_modeWrites (tr : List Ev) (v : Nat) (h : Ev.wr REG_OP_MODE v ∈ tr) :
    v ∈ modeWrites tr :=
  List.mem_filterMap.mpr ⟨Ev.wr REG_OP_MODE v, h, by simp [modeWrites]⟩

/-- The polling loop never writes the mode register. -/
theorem modeWrites_txWait (flags : Nat → Nat) (fuel e : Nat) :
    modeWrites (txWait flags fuel e).2 = [] := by
  rw [modeWrites, List.filterMap_eq_nil_iff]
  intro ev hmem
  obtain ⟨u, hu⟩ := txWait_events flags fuel e ev hmem
  subst hu
  rfl

/-- modeWrites distributes over trace concatenation. -/
theorem modeWrites_append (a b : List Ev) :
    modeWrites (a ++ b) = modeWrites a ++ modeWrites b := by
  simp [modeWrites, List.filterMap_append]

/-- The mode writes of Initialize: none on the version-mismatch path, and
Sleep followed by Standby on the successful path. -/
theorem modeWrites_setup (f : Int) (regs : Nat → Nat) (st : SessionState) :
    modeWrites (setup_ourlora f regs st).2.2 = [] ∨
    modeWrites (setup_ourlora f regs st).2.2 =
      [ MODE_LONG_RANGE_MODE ||| MODE_SLEEP,
        MODE_LONG_RANGE_MODE ||| MODE_STDBY] := by
  by_cases h : regs REG_VERSION % 256 = 0x12
  · right
    simp only [setup_ourlora]
    rw [if_neg (fun hc => hc h)]
    rfl
  · left
    simp only [setup_ourlora]
    rw [if_pos h]
    rfl

/-- The mode writes of Transmit: Standby then Transmit, followed by a final
Standby exactly on the success path. -/
theorem modeWrites_send (msg : List Nat) (flags : Nat → Nat) (st : SessionState) :
    modeWrites (send_a_msg msg flags st).2.2 =
      if (txWait flags 2002 0).1 then
        [ MODE_LONG_RANGE_MODE ||| MODE_STDBY, MODE_LONG_RANGE_MODE ||| MODE_TX,
          MODE_LONG_RANGE_MODE ||| MODE_STDBY]
      else
        [ MODE_LONG_RANGE_MODE ||| MODE_STDBY, MODE_LONG_RANGE_MODE ||| MODE_TX] := by
  simp only [send_a_msg]
  cases hw : (txWait flags 2002 0).1
  · simp only [hw, Bool.false_eq_true, if_false]
    rw [modeWrites_append, modeWrites_txWait]
    rfl
  · simp only [hw, if_true]
    rw [modeWrites_append, modeWrites_append, modeWrites_txWait]
    rfl

/-
Claim theorems.
-/

/-- C1: For every valid frequencyMHz input (positive and at most 1023 MHz, so
that the result fits the 24-bit register), Initialize computes the frequency
word equal to round(frequencyMHz * 1000000 * 2^19 / 32000000) computed with
exact arithmetic (the uint64 intermediate gives at least 48 bits, so the C
computation never wraps), the word fits in 24 bits, and the word is strictly
monotonically increasing in frequencyMHz. -/
theorem frf_word_correct :
    (∀ f : Int, 0 < f → f ≤ 1023 →
      frfWord f = frfSpec f.toNat ∧ frfWord f < 2 ^ 24) ∧
    (∀ f g : Int, 0 < f → f < g → g ≤ 1023 → frfWord f < frfWord g) := by
  have hspec : ∀ n : Nat, frfSpec n = n * 16384 := by
    intro n
    show (2 * (n * 1000000 * 2 ^ 19) + 32000000) / (2 * 32000000) = n * 16384
    have h1 : 2 * (n * 1000000 * 2 ^ 19) + 32000000
        = 64000000 * (n * 16384) + 32000000 := by ring
    rw [h1]
    omega
  constructor
  · intro f h1 h2
    rw [frfWord_eq_mul f h1 h2, hspec]
    have : f.toNat ≤ 1023 := by omega
    exact ⟨rfl, by omega⟩
  · intro f g hf hfg hg
    rw [frfWord_eq_mul f hf (by omega), frfWord_eq_mul g (by omega) hg]
    have : f.toNat < g.toNat := by omega
    omega

/-- C1 witness: the theorem applied at the representative frequencies; the
concrete words are the constants named in the claim. -/
theorem frf_word_correct_witness :
    frfWord 433 = frfSpec (Int.toNat 433) ∧ frfWord 433 < 2 ^ 24 ∧
    frfWord 433 < frfWord 868 ∧ frfWord 868 < frfWord 915 ∧
    frfWord 433 = 0x6C4000 ∧ frfWord 868 = 0xD90000 ∧ frfWord 915 = 0xE4C000 :=
  ⟨(frf_word_correct.1 433 (by norm_num) (by norm_num)).1,
   (frf_word_correct.1 433 (by norm_num) (by norm_num)).2,
   frf_word_correct.2 433 868 (by norm_num) (by norm_num) (by norm_num),
   frf_word_correct.2 868 915 (by norm_num) (by norm_num) (by norm_num),
   by decide, by decide, by decide⟩

/-- C3: whenever the chip identification register returns anything but 0x12,
Initialize returns failure immediately, the session state (in particular the
stored frequency) is untouched, and the only bus access performed is the
single version read. -/
theorem init_version_mismatch (f : Int) (regs : Nat → Nat) (st : SessionState)
    (h : regs REG_VERSION % 256 ≠ 0x12) :
    setup_ourlora f regs st
      = (false, st, [Ev.rd REG_VERSION (regs REG_VERSION % 256)]) := by
  simp only [setup_ourlora]
  rw [if_pos h]

/-- C3 witness: a simulated chip that answers 0 to every read makes Initialize
fail and leaves the initial state unchanged. -/
theorem init_version_mismatch_witness :
    setup_ourlora 433 (fun _ => 0) initState
      = (false, initState, [Ev.rd REG_VERSION 0]) :=
  init_version_mismatch 433 (fun _ => 0) initState (by decide)

/-- C6: when the RX-done bit is clear in the interrupt flags, PollReceive
returns 0 (no packet), writes nothing into the caller buffer, leaves the
session state unchanged, and its whole bus activity is the single initial
flags read. -/
theorem receive_no_packet (maxLength : Nat) (regs fifo : Nat → Nat)
    (st : SessionState)
    (h : (regs REG_IRQ_FLAGS % 256) &&& IRQ_RX_DONE_MASK = 0) :
    check_for_msg maxLength regs fifo st
      = (0, [], st, [Ev.rd REG_IRQ_FLAGS (regs REG_IRQ_FLAGS % 256)]) := by
  simp only [check_for_msg]
  rw [if_pos h]

/-- C6 witness: a flags register reading 0 yields the no-packet result with a
one-event trace. -/
theorem receive_no_packet_witness :
    check_for_msg 255 (fun _ => 0) (fun _ => 0) initState
      = (0, [], initState, [Ev.rd REG_IRQ_FLAGS 0]) :=
  receive_no_packet 255 (fun _ => 0) (fun _ => 0) initState (by decide)

/-- C5: when the flags show RX-done together with the CRC-error bit,
PollReceive returns the CRC-error status -1 (distinct from the no-packet
result 0), clears the RX-done flag and then the CRC-error flag, reads no FIFO
byte, and leaves the stored RSSI and SNR (the whole session state)
unchanged. -/
theorem receive_crc_error (maxLength : Nat) (regs fifo : Nat → Nat)
    (st : SessionState)
    (hrx : (regs REG_IRQ_FLAGS % 256) &&& IRQ_RX_DONE_MASK ≠ 0)
    (hcrc : (regs REG_IRQ_FLAGS % 256) &&& IRQ_PAYLOAD_CRC_ERROR ≠ 0) :
    check_for_msg maxLength regs fifo st
      = (-1, [], st,
          [Ev.rd REG_IRQ_FLAGS (regs REG_IRQ_FLAGS % 256),
           Ev.wr REG_IRQ_FLAGS IRQ_RX_DONE_MASK,
           Ev.wr REG_IRQ_FLAGS IRQ_PAYLOAD_CRC_ERROR]) := by
  simp only [check_for_msg]
  rw [if_neg (fun hc => hrx hc), if_pos hcrc]

/-- C5 witness: flags value 0x60 (RX-done and CRC-error both set) produces the
CRC-error outcome with exactly the flag-clearing writes and no FIFO access. -/
theorem receive_crc_error_witness :
    check_for_msg 255 (fun _ => 0x60) (fun _ => 0) initState
      = (-1, [], initState,
          [Ev.rd REG_IRQ_FLAGS 0x60,
           Ev.wr REG_IRQ_FLAGS IRQ_RX_DONE_MASK,
           Ev.wr REG_IRQ_FLAGS IRQ_PAYLOAD_CRC_ERROR]) :=
  receive_crc_error 255 (fun _ => 0x60) (fun _ => 0) initState
    (by decide) (by decide)

/-- C4: on the successful-packet path (RX-done set, no CRC error) PollReceive
returns min(N, C) where N is the received-byte-count register value and C the
caller buffer capacity, the caller buffer receives exactly min(N, C) bytes
(the buffer model is the returned list, so nothing past index min(N, C) - 1 is
written), and the FIFO burst read in the trace transfers exactly those
bytes. -/
theorem receive_truncation (maxLength : Nat) (regs fifo : Nat → Nat)
    (st : SessionState) (hcap : maxLength < 256)
    (hrx : (regs REG_IRQ_FLAGS % 256) &&& IRQ_RX_DONE_MASK ≠ 0)
    (hcrc : (regs REG_IRQ_FLAGS % 256) &&& IRQ_PAYLOAD_CRC_ERROR = 0) :
    (check_for_msg maxLength regs fifo st).1
        = ((min (regs REG_RX_NB_BYTES % 256) maxLength : Nat) : Int) ∧
    (check_for_msg maxLength regs fifo st).2.1.length
        = min (regs REG_RX_NB_BYTES % 256) maxLength ∧
    Ev.burstRd (check_for_msg maxLength regs fifo st).2.1
        ∈ (check_for_msg maxLength regs fifo st).2.2.2 := by
  simp only [check_for_msg]
  rw [if_neg (fun hc => hrx hc), if_neg (fun hc => hc hcrc)]
  dsimp only
  rw [Nat.mod_eq_of_lt hcap]
  refine ⟨?_, ?_, ?_⟩
  · by_cases h : regs REG_RX_NB_BYTES % 256 > maxLength
    · rw [if_pos h]; congr 1; omega
    · rw [if_neg h]; congr 1; omega
  · rw [List.length_map, List.length_range]
    by_cases h : regs REG_RX_NB_BYTES % 256 > maxLength
    · rw [if_pos h]; omega
    · rw [if_neg h]; omega
  · simp

/-- C4 witness: a simulated received length of 200 with capacity 50 returns
exactly 50 and fills exactly 50 buffer bytes. -/
theorem receive_truncation_witness :
    (check_for_msg 50 (fun a => if a = REG_RX_NB_BYTES then 200 else 0x40)
        (fun _ => 7) initState).1 = 50 ∧
    (check_for_msg 50 (fun a => if a = REG_RX_NB_BYTES then 200 else 0x40)
        (fun _ => 7) initState).2.1.length = 50 := by
  have h := receive_truncation 50
    (fun a => if a = REG_RX_NB_BYTES then 200 else 0x40) (fun _ => 7) initState
    (by decide) (by decide) (by decide)
  exact ⟨by rw [h.1]; decide, by rw [h.2.1]; decide⟩

/-- C7: on the successful-packet path the stored RSSI is the raw RSSI register
byte minus 164 when the configured frequency is below 525 MHz and minus 157
otherwise (so frequency exactly 525 uses 157), and the stored SNR is the raw
SNR register byte reinterpreted as a signed byte and divided by 4 with C
truncating division. -/
theorem receive_signal_metrics (maxLength : Nat) (regs fifo : Nat → Nat)
    (st : SessionState)
    (hrx : (regs REG_IRQ_FLAGS % 256) &&& IRQ_RX_DONE_MASK ≠ 0)
    (hcrc : (regs REG_IRQ_FLAGS % 256) &&& IRQ_PAYLOAD_CRC_ERROR = 0) :
    (check_for_msg maxLength regs fifo st).2.2.1.lastRssi
        = (regs REG_PKT_RSSI_VALUE % 256 : Int)
            - (if st.currentFreq < 525 then 164 else 157) ∧
    (check_for_msg maxLength regs fifo st).2.2.1.lastSnr
        = Int.tdiv (signedByte (regs REG_PKT_SNR_VALUE % 256)) 4 := by
  simp only [check_for_msg]
  rw [if_neg (fun hc => hrx hc), if_neg (fun hc => hc hcrc)]
  exact ⟨rfl, rfl⟩

/-- C7 witness: at the boundary frequency 525 the offset is 157 (raw RSSI 100
gives stored RSSI -57), and the raw SNR byte 0xFF is the signed value -1,
stored as -1 tdiv 4 = 0. -/
theorem receive_signal_metrics_witness :
    (check_for_msg 255
        (fun a => if a = REG_PKT_RSSI_VALUE then 100
                  else if a = REG_PKT_SNR_VALUE then 0xFF else 0x40)
        (fun _ => 0) ⟨0, 0, 525⟩).2.2.1.lastRssi = -57 ∧
    (check_for_msg 255
        (fun a => if a = REG_PKT_RSSI_VALUE then 100
                  else if a = REG_PKT_SNR_VALUE then 0xFF else 0x40)
        (fun _ => 0) ⟨0, 0, 525⟩).2.2.1.lastSnr = 0 := by
  have h := receive_signal_metrics 255
    (fun a => if a = REG_PKT_RSSI_VALUE then 100
              else if a = REG_PKT_SNR_VALUE then 0xFF else 0x40)
    (fun _ => 0) ⟨0, 0, 525⟩ (by decide) (by decide)
  exact ⟨by rw [h.1]; decide, by rw [h.2]; decide⟩

/-- C2: Transmit returns success exactly when some 1 ms-spaced poll within the
timeout window (elapsed 0 through 2001 ms, i.e. until more than 2000 ms have
passed) observes the TX-done bit; otherwise it returns failure, its complete
trace being the six setup writes (the last a Transmit-mode write) followed by
one flags read per elapsed millisecond and nothing else, so the operating mode
is left in Transmit on the failure path. The Bool result makes the outcome
exactly one of the two. -/
theorem transmit_outcomes (message : List Nat) (flags : Nat → Nat)
    (st : SessionState) :
    ((send_a_msg message flags st).1 = true ↔
      ∃ t, t ≤ 2001 ∧ (flags t % 256) &&& IRQ_TX_DONE_MASK ≠ 0) ∧
    ((send_a_msg message flags st).1 = false →
      (send_a_msg message flags st).2.2 =
        [Ev.wr REG_OP_MODE (MODE_LONG_RANGE_MODE ||| MODE_STDBY),
         Ev.wr REG_IRQ_FLAGS 0xFF,
         Ev.wr REG_FIFO_ADDR_PTR 0x00,
         Ev.burstWr (message.map (· % 256)),
         Ev.wr REG_PAYLOAD_LENGTH (message.length % 256),
         Ev.wr REG_OP_MODE (MODE_LONG_RANGE_MODE ||| MODE_TX)] ++
          (List.range 2002).map (fun t => Ev.rd REG_IRQ_FLAGS (flags t % 256)) ∧
      modeWrites (send_a_msg message flags st).2.2 =
        [ MODE_LONG_RANGE_MODE ||| MODE_STDBY, MODE_LONG_RANGE_MODE ||| MODE_TX]) := by
  have hiff := txWait_true_iff flags 2002 0 (by omega) (by omega)
  constructor
  · rw [show (send_a_msg message flags st).1 = (txWait flags 2002 0).1 by
      simp only [send_a_msg]
      by_cases h : (txWait flags 2002 0).1 <;> simp [h]]
    rw [hiff]
    constructor
    · rintro ⟨t, _, ht2, ht3⟩; exact ⟨t, ht2, ht3⟩
    · rintro ⟨t, ht2, ht3⟩; exact ⟨t, Nat.zero_le t, ht2, ht3⟩
  · intro hfail
    have hw : (txWait flags 2002 0).1 = false := by
      by_contra hc
      have : (txWait flags 2002 0).1 = true := by
        cases h : (txWait flags 2002 0).1
        · exact absurd h hc
        · rfl
      have : (send_a_msg message flags st).1 = true := by
        simp only [send_a_msg, this]
        simp
      rw [hfail] at this
      exact Bool.false_ne_true this
    have hall : ∀ t, 0 ≤ t → t ≤ 2001 → (flags t % 256) &&& IRQ_TX_DONE_MASK = 0 := by
      intro t _ ht
      by_contra hc
      have := hiff.mpr ⟨t, Nat.zero_le t, ht, hc⟩
      rw [hw] at this
      exact Bool.false_ne_true this
    have htr := txWait_false_trace flags 2002 0 (by omega) (by omega) hall
    have htrace : (send_a_msg message flags st).2.2 =
        [Ev.wr REG_OP_MODE (MODE_LONG_RANGE_MODE ||| MODE_STDBY),
         Ev.wr REG_IRQ_FLAGS 0xFF,
         Ev.wr REG_FIFO_ADDR_PTR 0x00,
         Ev.burstWr (message.map (· % 256)),
         Ev.wr REG_PAYLOAD_LENGTH (message.length % 256),
         Ev.wr REG_OP_MODE (MODE_LONG_RANGE_MODE ||| MODE_TX)] ++
          (List.range 2002).map (fun t => Ev.rd REG_IRQ_FLAGS (flags t % 256)) := by
      simp only [send_a_msg, hw]
      simp only [Bool.false_eq_true, if_false]
      rw [htr]
      rw [List.range_eq_range']
    refine ⟨htrace, ?_⟩
    rw [htrace]
    simp only [modeWrites, List.filterMap_append, List.filterMap_map]
    norm_num [REG_OP_MODE, REG_IRQ_FLAGS, REG_FIFO_ADDR_PTR, REG_PAYLOAD_LENGTH,
      MODE_LONG_RANGE_MODE, MODE_STDBY, MODE_TX, List.filterMap_cons]

/-- C2 witness: with a flags oracle that never shows TX-done, Transmit fails
and its mode-register writes are Standby then Transmit, leaving the mode in
Transmit. -/
theorem transmit_outcomes_witness :
    (send_a_msg [] (fun _ => 0) initState).1 = false ∧
    modeWrites (send_a_msg [] (fun _ => 0) initState).2.2 =
      [ MODE_LONG_RANGE_MODE ||| MODE_STDBY, MODE_LONG_RANGE_MODE ||| MODE_TX] := by
  have h := transmit_outcomes [] (fun _ => 0) initState
  have hne : ¬∃ t, t ≤ 2001 ∧ ((fun _ => 0) t % 256) &&& IRQ_TX_DONE_MASK ≠ 0 := by
    rintro ⟨t, _, ht⟩
    exact ht (by simp)
  have hf : (send_a_msg [] (fun _ => 0) initState).1 = false := by
    cases hres : (send_a_msg [] (fun _ => 0) initState).1
    · rfl
    · exact absurd (h.1.mp hres) hne
  exact ⟨hf, (h.2 hf).2⟩

/-- C8: Transmit with an empty payload performs a FIFO burst session carrying
zero data bytes, still performs the Standby-mode write, the flag clear, the
FIFO-pointer reset, the payload-length write (value 0) and the Transmit-mode
write in that order, and once a poll observes the TX-done bit it clears that
flag, returns to Standby and reports success; the events between setup and
completion are exactly the flag polls. -/
theorem transmit_empty_payload (flags : Nat → Nat) (st : SessionState)
    (h : ∃ t, t ≤ 2001 ∧ (flags t % 256) &&& IRQ_TX_DONE_MASK ≠ 0) :
    (send_a_msg [] flags st).1 = true ∧
    ∃ polls, (send_a_msg [] flags st).2.2 =
        [Ev.wr REG_OP_MODE (MODE_LONG_RANGE_MODE ||| MODE_STDBY),
         Ev.wr REG_IRQ_FLAGS 0xFF,
         Ev.wr REG_FIFO_ADDR_PTR 0x00,
         Ev.burstWr [],
         Ev.wr REG_PAYLOAD_LENGTH 0,
         Ev.wr REG_OP_MODE (MODE_LONG_RANGE_MODE ||| MODE_TX)] ++
          polls ++
        [Ev.wr REG_IRQ_FLAGS IRQ_TX_DONE_MASK,
         Ev.wr REG_OP_MODE (MODE_LONG_RANGE_MODE ||| MODE_STDBY)] ∧
      ∀ ev ∈ polls, ∃ v, ev = Ev.rd REG_IRQ_FLAGS v := by
  obtain ⟨t, ht1, ht2⟩ := h
  have hw : (txWait flags 2002 0).1 = true :=
    (txWait_true_iff flags 2002 0 (by omega) (by omega)).mpr
      ⟨t, Nat.zero_le t, ht1, ht2⟩
  constructor
  · simp only [send_a_msg, hw]
    simp
  · refine ⟨(txWait flags 2002 0).2, ?_, txWait_events flags 2002 0⟩
    simp only [send_a_msg, hw]
    simp

/-- C8 witness: with TX-done visible at the first poll, the empty-payload
transmit succeeds and its trace has zero FIFO data bytes. -/
theorem transmit_empty_payload_witness :
    (send_a_msg [] (fun _ => 0x08) initState).1 = true ∧
    ∃ polls, (send_a_msg [] (fun _ => 0x08) initState).2.2 =
        [Ev.wr REG_OP_MODE (MODE_LONG_RANGE_MODE ||| MODE_STDBY),
         Ev.wr REG_IRQ_FLAGS 0xFF,
         Ev.wr REG_FIFO_ADDR_PTR 0x00,
         Ev.burstWr [],
         Ev.wr REG_PAYLOAD_LENGTH 0,
         Ev.wr REG_OP_MODE (MODE_LONG_RANGE_MODE ||| MODE_TX)] ++
          polls ++
        [Ev.wr REG_IRQ_FLAGS IRQ_TX_DONE_MASK,
         Ev.wr REG_OP_MODE (MODE_LONG_RANGE_MODE ||| MODE_STDBY)] ∧
      ∀ ev ∈ polls, ∃ v, ev = Ev.rd REG_IRQ_FLAGS v :=
  transmit_empty_payload (fun _ => 0x08) initState ⟨0, by decide⟩

/-- C9: every value the driver ever writes to the operating-mode register, in
Initialize, Transmit, StartListening, Sleep and WakeUp, under every input and
every oracle, carries the long-range selector bit 0x80 and one of the four
legal mode codes Sleep, Standby, Transmit, ContinuousReceive. -/
theorem mode_writes_legal :
    (∀ f regs st, goodModeWrite (setup_ourlora f regs st).2.2) ∧
    (∀ msg flags st, goodModeWrite (send_a_msg msg flags st).2.2) ∧
    goodModeWrite start_listening ∧
    goodModeWrite go_to_sleep ∧
    goodModeWrite wake_up_lora := by
  have hmodes : ∀ v, (v = MODE_LONG_RANGE_MODE ||| MODE_SLEEP ∨
      v = MODE_LONG_RANGE_MODE ||| MODE_STDBY ∨
      v = MODE_LONG_RANGE_MODE ||| MODE_TX ∨
      v = MODE_LONG_RANGE_MODE ||| MODE_RX_CONTINUOUS) →
      v &&& 0x80 = 0x80 ∧
        (v &&& 0x7F = MODE_SLEEP ∨ v &&& 0x7F = MODE_STDBY ∨
         v &&& 0x7F = MODE_TX ∨ v &&& 0x7F = MODE_RX_CONTINUOUS) := by
    rintro v (rfl | rfl | rfl | rfl) <;> exact ⟨by decide, by decide⟩
  refine ⟨?_, ?_, ?_, ?_, ?_⟩
  · intro f regs st v hv
    apply hmodes
    have hm := mem_modeWrites _ v hv
    rcases modeWrites_setup f regs st with h | h <;> rw [h] at hm
    · exact absurd hm (List.not_mem_nil v)
    · simp only [List.mem_cons, List.not_mem_nil, or_false] at hm
      tauto
  · intro msg flags st v hv
    apply hmodes
    have hm := mem_modeWrites _ v hv
    rw [modeWrites_send] at hm
    cases hw : (txWait flags 2002 0).1 <;> rw [hw] at hm <;>
      simp only [Bool.false_eq_true, if_false, if_true, List.mem_cons,
        List.not_mem_nil, or_false] at hm <;>
      tauto
  · intro v hv
    apply hmodes
    have hm := mem_modeWrites _ v hv
    simp only [show modeWrites start_listening =
        [ MODE_LONG_RANGE_MODE ||| MODE_STDBY,
          MODE_LONG_RANGE_MODE ||| MODE_RX_CONTINUOUS] from rfl,
      List.mem_cons, List.not_mem_nil, or_false] at hm
    tauto
  · intro v hv
    apply hmodes
    have hm := mem_modeWrites _ v hv
    simp only [show modeWrites go_to_sleep =
        [ MODE_LONG_RANGE_MODE ||| MODE_SLEEP] from rfl,
      List.mem_cons, List.not_mem_nil, or_false] at hm
    tauto
  · intro v hv
    apply hmodes
    have hm := mem_modeWrites _ v hv
    simp only [show modeWrites wake_up_lora =
        [ MODE_LONG_RANGE_MODE ||| MODE_STDBY] from rfl,
      List.mem_cons, List.not_mem_nil, or_false] at hm
    tauto

/-- C9 witness: the theorem applied to the ContinuousReceive-mode write that
StartListening performs. -/
theorem mode_writes_legal_witness :
    (0x85 : Nat) &&& 0x80 = 0x80 ∧
      ((0x85 : Nat) &&& 0x7F = MODE_SLEEP ∨ (0x85 : Nat) &&& 0x7F = MODE_STDBY ∨
       (0x85 : Nat) &&& 0x7F = MODE_TX ∨
       (0x85 : Nat) &&& 0x7F = MODE_RX_CONTINUOUS) :=
  mode_writes_legal.2.2.1 0x85 (by decide)

/-- C10: before any successful PollReceive, both accessors return the defined
initial value 0: the globals start at 0, the accessors are pure (they read the
state, perform no bus access and leave the state unchanged), and neither
Initialize nor Transmit ever changes the stored RSSI or SNR, so any operation
sequence without a successful PollReceive keeps both at 0. -/
theorem accessors_initial_zero :
    (get_signal_strength initState).1 = 0 ∧
    (get_signal_quality initState).1 = 0 ∧
    (∀ st, get_signal_strength st = (st.lastRssi, st, []) ∧
           get_signal_quality st = (st.lastSnr, st, [])) ∧
    (∀ f regs st, (setup_ourlora f regs st).2.1.lastRssi = st.lastRssi ∧
                  (setup_ourlora f regs st).2.1.lastSnr = st.lastSnr) ∧
    (∀ msg flags st, (send_a_msg msg flags st).2.1 = st) := by
  refine ⟨rfl, rfl, fun st => ⟨rfl, rfl⟩, ?_, ?_⟩
  · intro f regs st
    constructor <;> (simp only [setup_ourlora]; split <;> rfl)
  · intro msg flags st
    simp only [send_a_msg]
    split <;> rfl

end OurLoRa
